import Mathlib

/-!
Shallow embedding of the Zenith personal-finance tracker's state engine
(`src/context/FinancialContext.tsx`, `src/types.ts`), the presentation-level
drop handler that materializes an expense from a purchased item
(`src/components/Purchases.tsx`, shipped here as `src/unnamed/part_004`), the
import/export surface (`AppContent.handleExport` / `handleImport`), the
monthly-aggregate projections (`src/components/Dashboard.tsx`,
`ExpenseTracker.monthlyData`), and the insight/rundown adapters
(`src/services/geminiService.ts`).

Monetary amounts are modelled as rationals; dates, month keys and ids are the
strings the source manipulates.
-/

namespace Zenith

/-- `ExpenseCategory` from `src/types.ts`. -/
inductive ExpenseCategory where
  | Housing | Food | Transportation | TrainingGym | Health
  | DebtPayments | BusinessExpenses | Personal | Emergency | Other
deriving DecidableEq, Repr

/-- Expense mode. The revision of `types.ts` present under `src/` lists
`Survival` and `Growth`; the reducer seed in `FinancialContext.tsx` also uses
`ExpenseMode.Both`, whose defining revision is absent from the sources, so the
three-value form used by `FinancialContext.tsx` is embedded. -/
inductive ExpenseMode where
  | Survival | Growth | Both
deriving DecidableEq, Repr

/-- `ExpensePlanMode`: imported from `../types` by `FinancialContext.tsx` and
`ExpenseTracker`, defining revision absent from `src/`; its two values
(Survival, Growth) are taken from every use site. -/
inductive ExpensePlanMode where
  | Survival | Growth
deriving DecidableEq, Repr

/-- `IncomeSource` from `src/types.ts`. -/
inductive IncomeSource where
  | Employment | Consulting | Newsletter | CourseSales | Speaking | Other
deriving DecidableEq, Repr

/-- `AssetCategory` from `src/types.ts`. -/
inductive AssetCategory where
  | StocksETFs | Crypto | Savings | EmergencyFund | BusinessAssets
deriving DecidableEq, Repr

/-- `PurchaseStatus` from `src/types.ts`. -/
inductive PurchaseStatus where
  | Considering | Purchased | Declined
deriving DecidableEq, Repr

/-- `Expense` record from `src/types.ts`. -/
structure Expense where
  id : String
  date : String
  category : ExpenseCategory
  amount : ℚ
  description : String
  mode : ExpenseMode
deriving DecidableEq, Repr

/-- `RecurringExpense` from `src/types.ts`; `frequency` is the fixed literal
`'monthly'` and carries no information, so it is omitted from the record. -/
structure RecurringExpense where
  id : String
  description : String
  amount : ℚ
  category : ExpenseCategory
  mode : ExpenseMode
  startDate : String
deriving DecidableEq, Repr

/-- `ExpensePlan`; `FinancialContext.tsx` tags plans with `ExpensePlanMode`. -/
structure ExpensePlan where
  id : String
  month : String
  mode : ExpensePlanMode
  amount : ℚ
deriving DecidableEq, Repr

/-- `Debt` from `src/types.ts`. -/
structure Debt where
  id : String
  name : String
  originalAmount : ℚ
  currentBalance : ℚ
  interestRate : ℚ
  minimumPayment : ℚ
deriving DecidableEq, Repr

/-- `Income` from `src/types.ts`. -/
structure Income where
  id : String
  date : String
  source : IncomeSource
  amount : ℚ
  description : String
deriving DecidableEq, Repr

/-- `IncomeGoal` from `src/types.ts`. -/
structure IncomeGoal where
  id : String
  month : String
  amount : ℚ
deriving DecidableEq, Repr

/-- `Asset` from `src/types.ts`. -/
structure Asset where
  id : String
  name : String
  category : AssetCategory
  amountInvested : ℚ
  currentValue : ℚ
  date : String
deriving DecidableEq, Repr

/-- `Purchase` from `src/types.ts`. -/
structure Purchase where
  id : String
  name : String
  cost : ℚ
  category : ExpenseCategory
  justification : String
  status : PurchaseStatus
  dateAdded : String
deriving DecidableEq, Repr

/-- `FinancialData` aggregate from `src/types.ts`. -/
structure FinancialData where
  expenses : List Expense
  recurringExpenses : List RecurringExpense
  debts : List Debt
  income : List Income
  assets : List Asset
  incomeGoals : List IncomeGoal
  expensePlans : List ExpensePlan
  purchases : List Purchase
deriving DecidableEq, Repr

/-- The JSON document handed to `SET_STATE`. Its static type in the source is
`FinancialData`, but the import path (`AppContent.handleImport`) feeds it an
arbitrary parsed JSON object, so each top-level collection may be absent;
`none` models an absent field, over which the seed default survives the
shallow merge `\x7b ...initialState, ...action.payload \x7d`. -/
structure ImportDoc where
  expenses : Option (List Expense) := none
  recurringExpenses : Option (List RecurringExpense) := none
  debts : Option (List Debt) := none
  income : Option (List Income) := none
  assets : Option (List Asset) := none
  incomeGoals : Option (List IncomeGoal) := none
  expensePlans : Option (List ExpensePlan) := none
  purchases : Option (List Purchase) := none
deriving DecidableEq, Repr

/-- The fourteen month keys generated in `FinancialContext.tsx` starting from
November 2025. -/
def seedMonths : List String :=
  ["2025-11", "2025-12", "2026-01", "2026-02", "2026-03", "2026-04", "2026-05",
   "2026-06", "2026-07", "2026-08", "2026-09", "2026-10", "2026-11", "2026-12"]

/-- `incomeGoalAmounts` from `FinancialContext.tsx`. -/
def incomeGoalAmounts : List ℚ :=
  [1500, 1800, 2000, 2200, 2500, 2800, 3000, 3200, 3500, 3800, 4000, 4200, 4500, 5000]

/-- The seed aggregate `initialState` from `FinancialContext.tsx`. -/
def initialState : FinancialData :=
  { expenses :=
      [ { id := "e1", date := "2025-11-05", category := .Housing, amount := 650,
          description := "Rent", mode := .Both },
        { id := "e2", date := "2025-11-03", category := .Food, amount := 80,
          description := "Groceries", mode := .Survival },
        { id := "e3", date := "2025-11-10", category := .TrainingGym, amount := 50,
          description := "Gym Membership", mode := .Growth } ]
    recurringExpenses :=
      [ { id := "re1", description := "Rent", amount := 650, category := .Housing,
          mode := .Both, startDate := "2025-11" },
        { id := "re2", description := "Gym Membership", amount := 50,
          category := .TrainingGym, mode := .Growth, startDate := "2025-11" },
        { id := "re3", description := "Phone Bill", amount := 30,
          category := .Personal, mode := .Survival, startDate := "2025-11" } ]
    debts :=
      [ { id := "d1", name := "Student Loan", originalAmount := 5000,
          currentBalance := 4800, interestRate := 55/10, minimumPayment := 100 },
        { id := "d2", name := "Credit Card", originalAmount := 2000,
          currentBalance := 1200, interestRate := 199/10, minimumPayment := 50 } ]
    income :=
      [ { id := "i1", date := "2025-11-15", source := .Consulting, amount := 1200,
          description := "Project Alpha" },
        { id := "i2", date := "2025-11-28", source := .Newsletter, amount := 50,
          description := "November Payout" },
        { id := "i3", date := "2025-12-15", source := .Consulting, amount := 1500,
          description := "Project Bravo" } ]
    assets :=
      [ { id := "a1", name := "Emergency Fund", category := .EmergencyFund,
          amountInvested := 3000, currentValue := 3000, date := "2024-01-01" },
        { id := "a2", name := "Savings Account", category := .Savings,
          amountInvested := 500, currentValue := 500, date := "2024-01-01" },
        { id := "a3", name := "Bitcoin", category := .Crypto,
          amountInvested := 1000, currentValue := 1500, date := "2023-06-15" },
        { id := "a4", name := "VWCE ETF", category := .StocksETFs,
          amountInvested := 800, currentValue := 950, date := "2023-08-20" } ]
    incomeGoals :=
      (List.range 14).map fun i =>
        { id := "ig" ++ toString (i + 1), month := seedMonths.getD i "",
          amount := incomeGoalAmounts.getD i 0 }
    expensePlans :=
      ((List.range 14).map fun i =>
        { id := "eps" ++ toString i, month := seedMonths.getD i "",
          mode := ExpensePlanMode.Survival, amount := 800 })
      ++ ((List.range 14).map fun i =>
        { id := "epg" ++ toString i, month := seedMonths.getD i "",
          mode := ExpensePlanMode.Growth, amount := 1500 })
    purchases :=
      [ { id := "p1", name := "New Standing Desk", cost := 450,
          category := .BusinessExpenses,
          justification := "Improve ergonomics and productivity.",
          status := .Considering, dateAdded := "2025-11-10" } ] }

/-- Parses a `YYYY-MM` month key: models `new Date(s + "-01T00:00:00Z")`,
which yields a valid timestamp exactly when the string is a four-digit year,
a dash, and a two-digit month between 01 and 12 (ISO-8601 parsing); any other
shape parses to an invalid date (`NaN` timestamp). The returned pair
`(year, month)` orders first-of-month timestamps exactly as the millisecond
values do. -/
def parseMonthKey (s : String) : Option (Nat × Nat) :=
  match s.toList with
  | [y1, y2, y3, y4, '-', m1, m2] =>
    if (y1.isDigit && y2.isDigit && y3.isDigit && y4.isDigit && m1.isDigit && m2.isDigit) then
      let y := (String.mk [y1, y2, y3, y4]).toNat?.getD 0
      let m := (String.mk [m1, m2]).toNat?.getD 0
      if 1 ≤ m ∧ m ≤ 12 then some (y, m) else none
    else none
  | _ => none

/-- Models `new Date(a + "-01T00:00:00Z") <= new Date(b + "-01T00:00:00Z")`:
numeric comparison of the two timestamps, false whenever either is `NaN`
(JavaScript `<=` on `NaN`). -/
def monthKeyLE (a b : String) : Bool :=
  match parseMonthKey a, parseMonthKey b with
  | some (ya, ma), some (yb, mb) => (ya < yb) || (ya == yb && ma ≤ mb)
  | _, _ => false

/-- The deterministic id of a materialized recurring expense:
`logged-<templateId>-<month>` from the `LOG_RECURRING_EXPENSES_FOR_MONTH`
branch. -/
def loggedExpenseId (templateId month : String) : String :=
  "logged-" ++ templateId ++ "-" ++ month

/-- The candidate expense built from a recurring template for a target month
(`LOG_RECURRING_EXPENSES_FOR_MONTH` branch). -/
def candidateExpense (re : RecurringExpense) (month : String) : Expense :=
  { id := loggedExpenseId re.id month
    date := month ++ "-01"
    category := re.category
    amount := re.amount
    description := re.description ++ " (Recurring)"
    mode := re.mode }

/-- `applicableRecurring` from the `LOG_RECURRING_EXPENSES_FOR_MONTH` branch:
the recurring templates whose start month is no later than the target month
(`Date` comparison of first-of-month timestamps). -/
def applicableRecurring (state : FinancialData) (month : String) :
    List RecurringExpense :=
  state.recurringExpenses.filter fun re => monthKeyLE re.startDate month

/-- `newExpensesToAdd` from the `LOG_RECURRING_EXPENSES_FOR_MONTH` branch:
the candidates of the applicable templates whose deterministic id is absent
from the set of existing expense ids (the `forEach`/`push` loop builds exactly
the filtered, mapped list). -/
def newExpensesToAdd (state : FinancialData) (month : String) : List Expense :=
  let existingExpenseIds := state.expenses.map fun e => e.id
  ((applicableRecurring state month).filter fun re =>
      !(existingExpenseIds.contains (loggedExpenseId re.id month))).map
    fun re => candidateExpense re month

/-- The `LOG_RECURRING_EXPENSES_FOR_MONTH` branch of `financialReducer`:
return the state unchanged when there is nothing new to add, else append the
new expenses. -/
def logRecurringForMonth (state : FinancialData) (month : String) : FinancialData :=
  if (newExpensesToAdd state month).isEmpty then state
  else { state with expenses := state.expenses ++ newExpensesToAdd state month }

/-- The `UPDATE_INCOME_GOAL` branch of `financialReducer`; `now` models
`Date.now()` used for the freshly generated id. -/
def updateIncomeGoal (state : FinancialData) (month : String) (amount : ℚ)
    (now : Nat) : FinancialData :=
  let goalExists := state.incomeGoals.any fun g => g.month == month
  if goalExists then
    { state with
        incomeGoals := state.incomeGoals.map fun g =>
          if g.month == month then { g with amount := amount } else g }
  else
    { state with
        incomeGoals := state.incomeGoals ++
          [{ id := "ig-" ++ toString now, month := month, amount := amount }] }

/-- The `UPDATE_EXPENSE_PLAN` branch of `financialReducer`. -/
def updateExpensePlan (state : FinancialData) (month : String)
    (mode : ExpensePlanMode) (amount : ℚ) (now : Nat) : FinancialData :=
  let planExists := state.expensePlans.any fun p => p.month == month && p.mode == mode
  if planExists then
    { state with
        expensePlans := state.expensePlans.map fun p =>
          if p.month == month && p.mode == mode then { p with amount := amount } else p }
  else
    { state with
        expensePlans := state.expensePlans ++
          [{ id := "ep-" ++ toString now, month := month, mode := mode, amount := amount }] }

/-- The `SET_STATE` branch: the shallow merge
`\x7b ...initialState, ...action.payload \x7d` — each collection present in the
payload overrides the seed value, each absent one keeps it. -/
def setStateMerge (payload : ImportDoc) : FinancialData :=
  { expenses := payload.expenses.getD initialState.expenses
    recurringExpenses := payload.recurringExpenses.getD initialState.recurringExpenses
    debts := payload.debts.getD initialState.debts
    income := payload.income.getD initialState.income
    assets := payload.assets.getD initialState.assets
    incomeGoals := payload.incomeGoals.getD initialState.incomeGoals
    expensePlans := payload.expensePlans.getD initialState.expensePlans
    purchases := payload.purchases.getD initialState.purchases }

/-- `FinancialAction` from `src/types.ts` (plus `UPDATE_RECURRING_EXPENSE`,
which the reducer handles). Delete payloads carry just the id. -/
inductive FinancialAction where
  | SET_STATE (payload : ImportDoc)
  | ADD_EXPENSE (payload : Expense)
  | UPDATE_EXPENSE (payload : Expense)
  | DELETE_EXPENSE (id : String)
  | ADD_RECURRING_EXPENSE (payload : RecurringExpense)
  | UPDATE_RECURRING_EXPENSE (payload : RecurringExpense)
  | DELETE_RECURRING_EXPENSE (id : String)
  | LOG_RECURRING_EXPENSES_FOR_MONTH (month : String)
  | ADD_DEBT (payload : Debt)
  | UPDATE_DEBT (payload : Debt)
  | DELETE_DEBT (id : String)
  | ADD_INCOME (payload : Income)
  | UPDATE_INCOME (payload : Income)
  | DELETE_INCOME (id : String)
  | ADD_ASSET (payload : Asset)
  | ADD_PURCHASE (payload : Purchase)
  | UPDATE_PURCHASE_STATUS (id : String) (status : PurchaseStatus)
  | UPDATE_INCOME_GOAL (month : String) (amount : ℚ)
  | UPDATE_EXPENSE_PLAN (month : String) (mode : ExpensePlanMode) (amount : ℚ)
  | UPDATE_DEBT_BALANCE (id : String) (newBalance : ℚ)
  | UPDATE_ASSET_VALUE (id : String) (newValue : ℚ)
deriving DecidableEq, Repr

/-- `financialReducer` from `src/context/FinancialContext.tsx`. `now` models
`Date.now()` (used only by the two upsert branches for fresh ids). -/
def financialReducer (state : FinancialData) (action : FinancialAction)
    (now : Nat) : FinancialData :=
  match action with
  | .SET_STATE payload => setStateMerge payload
  | .ADD_EXPENSE payload => { state with expenses := state.expenses ++ [payload] }
  | .UPDATE_EXPENSE payload =>
    { state with
        expenses := state.expenses.map fun e => if e.id == payload.id then payload else e }
  | .DELETE_EXPENSE id =>
    { state with expenses := state.expenses.filter fun e => e.id != id }
  | .ADD_RECURRING_EXPENSE payload =>
    { state with recurringExpenses := state.recurringExpenses ++ [payload] }
  | .UPDATE_RECURRING_EXPENSE payload =>
    { state with
        recurringExpenses := state.recurringExpenses.map fun re =>
          if re.id == payload.id then payload else re }
  | .DELETE_RECURRING_EXPENSE id =>
    { state with
        recurringExpenses := state.recurringExpenses.filter fun re => re.id != id }
  | .LOG_RECURRING_EXPENSES_FOR_MONTH month => logRecurringForMonth state month
  | .ADD_DEBT payload => { state with debts := state.debts ++ [payload] }
  | .UPDATE_DEBT payload =>
    { state with
        debts := state.debts.map fun d => if d.id == payload.id then payload else d }
  | .DELETE_DEBT id =>
    { state with debts := state.debts.filter fun d => d.id != id }
  | .ADD_INCOME payload => { state with income := state.income ++ [payload] }
  | .UPDATE_INCOME payload =>
    { state with
        income := state.income.map fun i => if i.id == payload.id then payload else i }
  | .DELETE_INCOME id =>
    { state with income := state.income.filter fun i => i.id != id }
  | .ADD_ASSET payload => { state with assets := state.assets ++ [payload] }
  | .ADD_PURCHASE payload => { state with purchases := state.purchases ++ [payload] }
  | .UPDATE_PURCHASE_STATUS id status =>
    { state with
        purchases := state.purchases.map fun p =>
          if p.id == id then { p with status := status } else p }
  | .UPDATE_INCOME_GOAL month amount => updateIncomeGoal state month amount now
  | .UPDATE_EXPENSE_PLAN month mode amount => updateExpensePlan state month mode amount now
  | .UPDATE_DEBT_BALANCE id newBalance =>
    { state with
        debts := state.debts.map fun d =>
          if d.id == id then { d with currentBalance := newBalance } else d }
  | .UPDATE_ASSET_VALUE id newValue =>
    { state with
        assets := state.assets.map fun a =>
          if a.id == id then { a with currentValue := newValue } else a }

/-- The expense synthesized by `StatusColumn.handleDrop` when a purchase is
dropped on the Purchased column (`src/unnamed/part_004`): deterministic id
`exp-from-pur-<purchaseId>`, today's date (`new Date().toISOString()` date
part, the `today` parameter), the purchase's category, cost and name, and mode
fixed to Growth. -/
def expenseFromPurchase (purchase : Purchase) (today : String) : Expense :=
  { id := "exp-from-pur-" ++ purchase.id
    date := today
    category := purchase.category
    amount := purchase.cost
    description := purchase.name
    mode := ExpenseMode.Growth }

/-- `StatusColumn.handleDrop` (`src/unnamed/part_004`): dispatches
`UPDATE_PURCHASE_STATUS`, then, when the target column is Purchased, looks the
purchase up in `window.__financial_context_state` — the aggregate captured at
the last render, i.e. the pre-drop `state` — and dispatches `ADD_EXPENSE` with
the synthesized expense. -/
def handleDrop (state : FinancialData) (purchaseId : String)
    (status : PurchaseStatus) (today : String) (now : Nat) : FinancialData :=
  let afterStatus :=
    financialReducer state (.UPDATE_PURCHASE_STATUS purchaseId status) now
  if status = PurchaseStatus.Purchased then
    match state.purchases.find? (fun p => p.id == purchaseId) with
    | some purchase =>
      financialReducer afterStatus (.ADD_EXPENSE (expenseFromPurchase purchase today)) now
    | none => afterStatus
  else afterStatus

/-- `AppContent.handleExport` (`src/unnamed/part_000`): `JSON.stringify` of
the aggregate serializes all eight collections, so every field of the exported
document is present. -/
def exportAggregate (state : FinancialData) : ImportDoc :=
  { expenses := some state.expenses
    recurringExpenses := some state.recurringExpenses
    debts := some state.debts
    income := some state.income
    assets := some state.assets
    incomeGoals := some state.incomeGoals
    expensePlans := some state.expensePlans
    purchases := some state.purchases }

/-- The validation in `AppContent.handleImport`:
`if (json.expenses && json.debts && json.income && json.assets)`. An array —
even an empty one — is truthy, so presence of the field is what is tested. -/
def importValidate (doc : ImportDoc) : Bool :=
  doc.expenses.isSome && doc.debts.isSome && doc.income.isSome && doc.assets.isSome

/-- Importing a document is dispatching `SET_STATE` with it
(`AppContent.handleImport`). -/
def importAggregate (state : FinancialData) (doc : ImportDoc) (now : Nat) :
    FinancialData :=
  financialReducer state (.SET_STATE doc) now

/-- JavaScript `s.startsWith(pre)`: the character sequence of `pre` is a
prefix of the character sequence of `s`. (Lean's own byte-level
`String.startsWith` has the same semantics; the character-level form is used
as the model.) -/
def jsStartsWith (s pre : String) : Bool := pre.data.isPrefixOf s.data

/-- The monthly expense aggregate used by `MonthlySummary`
(`src/components/Dashboard.tsx`) and `ExpenseTracker.monthlyData`
(`src/unnamed/part_001`): filter by `date.startsWith(monthKey)` and reduce the
amounts. -/
def monthlyExpenseTotal (expenses : List Expense) (monthKey : String) : ℚ :=
  ((expenses.filter fun e => jsStartsWith e.date monthKey).map fun e => e.amount).sum

/-- The monthly income aggregate from `MonthlySummary`
(`src/components/Dashboard.tsx`), same prefix filter. -/
def monthlyIncomeTotal (income : List Income) (monthKey : String) : ℚ :=
  ((income.filter fun i => jsStartsWith i.date monthKey).map fun i => i.amount).sum

/-- `totalLiquidAssets` from `getFinancialRundown`
(`src/services/geminiService.ts`). -/
def totalLiquidAssets (financialData : FinancialData) : ℚ :=
  ((financialData.assets.filter fun a =>
      a.category == AssetCategory.Savings || a.category == AssetCategory.EmergencyFund).map
    fun a => a.currentValue).sum

/-- The month key of an income record: `i.date.substring(0, 7)`. -/
def incomeMonthKey (i : Income) : String := i.date.take 7

/-- Adding one record's month key to the keys of the `incomeByMonth` object:
a plain JS object keeps non-numeric string keys in first-insertion order. -/
def insertMonthKey (ks : List String) (k : String) : List String :=
  if ks.contains k then ks else ks ++ [k]

/-- `Object.keys(incomeByMonth)` after the `forEach` accumulation in
`getFinancialRundown`: the distinct month keys of the income records, in order
of first appearance. -/
def incomeMonthKeys (inc : List Income) : List String :=
  inc.foldl (fun ks i => insertMonthKey ks (incomeMonthKey i)) []

/-- The value the `incomeByMonth` object holds under key `m`: the sum of the
amounts of the income records whose date has that 7-character prefix. -/
def incomeByMonth (inc : List Income) (m : String) : ℚ :=
  ((inc.filter fun i => incomeMonthKey i == m).map fun i => i.amount).sum

/-- `Object.keys(incomeByMonth).sort().slice(-3)` from `getFinancialRundown`:
JS `sort()` compares strings lexicographically; `slice(-3)` keeps the last
three entries (all of them when there are fewer). -/
def recentMonths (inc : List Income) : List String :=
  let sorted := (incomeMonthKeys inc).mergeSort fun a b => decide (a ≤ b)
  sorted.drop (sorted.length - 3)

/-- `avgMonthlyIncome` from `getFinancialRundown`
(`src/services/geminiService.ts`, lines 74–83). -/
def avgMonthlyIncome (inc : List Income) : ℚ :=
  let rm := recentMonths inc
  if rm.length > 0 then ((rm.map fun m => incomeByMonth inc m).sum) / (rm.length : ℚ)
  else 0

/-- The outcome of reading and `JSON.parse`-ing
`localStorage.getItem('geminiApiKey')` in `getApiKey`
(`src/services/geminiService.ts`): the parse may throw (caught and logged),
yield a non-string value, or yield a string. -/
inductive StoredKeyParse where
  | parseError
  | nonString
  | str (s : String)
deriving DecidableEq, Repr

/-- The message of the error thrown by `getApiKey` when no credential is
found. -/
def apiKeyErrorMessage : String :=
  "API key not found. Please go to the Settings page to configure your Gemini API key."

/-- The local-storage arm of `getApiKey`: accept a parsed string whose trim is
nonempty, otherwise fall through to the terminal throw. -/
def storedApiKey (stored : Option StoredKeyParse) : Except String String :=
  match stored with
  | some (.str s) => if s.trim != "" then .ok s else .error apiKeyErrorMessage
  | _ => .error apiKeyErrorMessage

/-- `getApiKey` (`src/services/geminiService.ts`): environment value first
(`if (envApiKey)` — a nonempty string is truthy), then local storage, else
throw. `.error m` models `throw new Error(m)`. -/
def getApiKey (envApiKey : Option String) (stored : Option StoredKeyParse) :
    Except String String :=
  match envApiKey with
  | some k => if k != "" then .ok k else storedApiKey stored
  | none => storedApiKey stored

/-- The collaborator call `ai.models.generateContent(...)` as seen by the
adapters: either a response text, or a thrown value — `.error (some m)` an
`Error` with message `m` (as from `getApiKey` or the SDK), `.error none` a
thrown non-`Error` value. -/
abbrev NetResult := Except (Option String) String

/-- The `try` body of `getFinancialInsights`: resolve the key (a throw
propagates), make the network call, and return `response.text.trim()`. The
prompt built from the financial summary is what the collaborator consumes;
its response is abstracted as `net`. -/
def getFinancialInsightsBody (envApiKey : Option String)
    (stored : Option StoredKeyParse) (net : NetResult) : NetResult :=
  match getApiKey envApiKey stored with
  | .error m => .error (some m)
  | .ok _ =>
    match net with
    | .ok response => .ok response.trim
    | .error e => .error e

/-- The fallback string of the `catch` branch of `getFinancialInsights`. -/
def insightsFallback : String :=
  "An unexpected error occurred while generating your financial insight."

/-- The fallback string of the `catch` branch of `getFinancialRundown`. -/
def rundownFallback : String :=
  "An unexpected error occurred while generating your financial rundown."

/-- `getFinancialInsights` (`src/services/geminiService.ts`): the `try` body
wrapped in the `catch` that converts an `Error` into its message and any other
thrown value into the fixed fallback string. -/
def getFinancialInsights (envApiKey : Option String)
    (stored : Option StoredKeyParse) (net : NetResult) : String :=
  match getFinancialInsightsBody envApiKey stored net with
  | .ok t => t
  | .error (some m) => m
  | .error none => insightsFallback

/-- The `try` body of `getFinancialRundown`: resolve the key, compute the
prompt inputs (liquid assets, trailing average income — serialized into the
prompt handed to the collaborator, abstracted as `net`), call the service and
return `response.text` (no trim here). -/
def getFinancialRundownBody (envApiKey : Option String)
    (stored : Option StoredKeyParse) (net : NetResult)
    (financialData : FinancialData) : NetResult :=
  match getApiKey envApiKey stored with
  | .error m => .error (some m)
  | .ok _ =>
    let _liquid := totalLiquidAssets financialData
    let _avg := avgMonthlyIncome financialData.income
    match net with
    | .ok response => .ok response
    | .error e => .error e

/-- `getFinancialRundown` (`src/services/geminiService.ts`): the `try` body
wrapped in the same error-to-string `catch` as the insights adapter. -/
def getFinancialRundown (envApiKey : Option String)
    (stored : Option StoredKeyParse) (net : NetResult)
    (financialData : FinancialData) : String :=
  match getFinancialRundownBody envApiKey stored net financialData with
  | .ok t => t
  | .error (some m) => m
  | .error none => rundownFallback

/-! ## Helper lemmas -/

theorem logRecurringForMonth_fields (s : FinancialData) (m : String) :
    (logRecurringForMonth s m).expenses = s.expenses ++ newExpensesToAdd s m ∧
    (logRecurringForMonth s m).recurringExpenses = s.recurringExpenses ∧
    (logRecurringForMonth s m).debts = s.debts ∧
    (logRecurringForMonth s m).income = s.income ∧
    (logRecurringForMonth s m).assets = s.assets ∧
    (logRecurringForMonth s m).incomeGoals = s.incomeGoals ∧
    (logRecurringForMonth s m).expensePlans = s.expensePlans ∧
    (logRecurringForMonth s m).purchases = s.purchases := by
  unfold logRecurringForMonth
  by_cases h : (newExpensesToAdd s m).isEmpty
  · rw [if_pos h, List.isEmpty_iff.mp h, List.append_nil]
    exact ⟨rfl, rfl, rfl, rfl, rfl, rfl, rfl, rfl⟩
  · rw [if_neg h]
    exact ⟨rfl, rfl, rfl, rfl, rfl, rfl, rfl, rfl⟩

theorem date_of_mem_newExpensesToAdd (s : FinancialData) (m : String) :
    ∀ e ∈ newExpensesToAdd s m, e.date = m ++ "-01" := by
  intro e he
  simp only [newExpensesToAdd] at he
  obtain ⟨re, _, rfl⟩ := List.mem_map.mp he
  rfl

theorem newExpensesToAdd_after_log (s : FinancialData) (m : String) :
    newExpensesToAdd (logRecurringForMonth s m) m = [] := by
  have hrec : (logRecurringForMonth s m).recurringExpenses = s.recurringExpenses :=
    (logRecurringForMonth_fields s m).2.1
  have hexp : (logRecurringForMonth s m).expenses
      = s.expenses ++ newExpensesToAdd s m :=
    (logRecurringForMonth_fields s m).1
  have happ : applicableRecurring (logRecurringForMonth s m) m
      = applicableRecurring s m := by
    unfold applicableRecurring; rw [hrec]
  simp only [newExpensesToAdd, happ, hexp, List.map_eq_nil_iff]
  rw [List.filter_eq_nil_iff]
  intro re hre
  simp only [Bool.not_eq_true', Bool.not_eq_false]
  rw [List.map_append]
  cases hc : (s.expenses.map fun e => e.id).contains (loggedExpenseId re.id m) with
  | true =>
    exact List.elem_iff.mpr (List.mem_append_left _ (List.elem_iff.mp hc))
  | false =>
    have hmem : candidateExpense re m ∈ newExpensesToAdd s m := by
      simp only [newExpensesToAdd]
      exact List.mem_map_of_mem _ (List.mem_filter.mpr ⟨hre, by rw [hc]; rfl⟩)
    have hid : loggedExpenseId re.id m ∈ (newExpensesToAdd s m).map fun e => e.id :=
      List.mem_map.mpr ⟨candidateExpense re m, hmem, rfl⟩
    exact List.elem_iff.mpr (List.mem_append_right _ hid)

/-! ## Claim theorems -/

/-- **C1**: for every month key `M` and every aggregate state, applying
`LOG_RECURRING_EXPENSES_FOR_MONTH` for `M` twice in a row yields the same
aggregate as applying it once. -/
theorem logRecurring_idempotent (s : FinancialData) (m : String) (n₁ n₂ : Nat) :
    financialReducer (financialReducer s (.LOG_RECURRING_EXPENSES_FOR_MONTH m) n₁)
        (.LOG_RECURRING_EXPENSES_FOR_MONTH m) n₂
      = financialReducer s (.LOG_RECURRING_EXPENSES_FOR_MONTH m) n₁ := by
  show logRecurringForMonth (logRecurringForMonth s m) m = logRecurringForMonth s m
  conv_lhs => rw [logRecurringForMonth]
  rw [newExpensesToAdd_after_log s m]
  rfl

/-- **C2**: `LOG_RECURRING_EXPENSES_FOR_MONTH(M)` leaves every collection
other than expenses unchanged, only appends expense entries dated on the first
day of `M`, and never removes or edits any expense already present. -/
theorem logRecurring_frame (s : FinancialData) (m : String) (n : Nat) :
    ∃ added : List Expense,
      (financialReducer s (.LOG_RECURRING_EXPENSES_FOR_MONTH m) n).expenses
          = s.expenses ++ added ∧
      (∀ e ∈ added, e.date = m ++ "-01") ∧
      (financialReducer s (.LOG_RECURRING_EXPENSES_FOR_MONTH m) n).recurringExpenses
          = s.recurringExpenses ∧
      (financialReducer s (.LOG_RECURRING_EXPENSES_FOR_MONTH m) n).debts = s.debts ∧
      (financialReducer s (.LOG_RECURRING_EXPENSES_FOR_MONTH m) n).income = s.income ∧
      (financialReducer s (.LOG_RECURRING_EXPENSES_FOR_MONTH m) n).assets = s.assets ∧
      (financialReducer s (.LOG_RECURRING_EXPENSES_FOR_MONTH m) n).incomeGoals
          = s.incomeGoals ∧
      (financialReducer s (.LOG_RECURRING_EXPENSES_FOR_MONTH m) n).expensePlans
          = s.expensePlans ∧
      (financialReducer s (.LOG_RECURRING_EXPENSES_FOR_MONTH m) n).purchases
          = s.purchases := by
  obtain ⟨h1, h2, h3, h4, h5, h6, h7, h8⟩ := logRecurringForMonth_fields s m
  exact ⟨newExpensesToAdd s m, h1, date_of_mem_newExpensesToAdd s m,
    h2, h3, h4, h5, h6, h7, h8⟩

/-- **C5**: for every aggregate (all eight collections present by type),
exporting and re-importing is lossless: the export passes the import
validation and `SET_STATE` with it restores the original aggregate exactly,
whatever state it is dispatched over. -/
theorem import_export_round_trip (s₀ s : FinancialData) (n : Nat) :
    importValidate (exportAggregate s) = true ∧
    importAggregate s₀ (exportAggregate s) n = s :=
  ⟨rfl, rfl⟩

/-- Whether an action is the whole-state replacement. -/
def isSetState : FinancialAction → Bool
  | .SET_STATE _ => true
  | _ => false

/-- Names of the eight top-level collections of the aggregate. -/
inductive Collection where
  | expenses | recurringExpenses | debts | income | assets
  | incomeGoals | expensePlans | purchases
deriving DecidableEq, Repr

/-- Every collection other than `f` is unchanged between `s` and `s'`. -/
def unchangedExcept (f : Collection) (s s' : FinancialData) : Prop :=
  (f ≠ .expenses → s'.expenses = s.expenses) ∧
  (f ≠ .recurringExpenses → s'.recurringExpenses = s.recurringExpenses) ∧
  (f ≠ .debts → s'.debts = s.debts) ∧
  (f ≠ .income → s'.income = s.income) ∧
  (f ≠ .assets → s'.assets = s.assets) ∧
  (f ≠ .incomeGoals → s'.incomeGoals = s.incomeGoals) ∧
  (f ≠ .expensePlans → s'.expensePlans = s.expensePlans) ∧
  (f ≠ .purchases → s'.purchases = s.purchases)

theorem updateIncomeGoal_frame (s : FinancialData) (month : String) (amount : ℚ)
    (now : Nat) :
    (updateIncomeGoal s month amount now).expenses = s.expenses ∧
    (updateIncomeGoal s month amount now).recurringExpenses = s.recurringExpenses ∧
    (updateIncomeGoal s month amount now).debts = s.debts ∧
    (updateIncomeGoal s month amount now).income = s.income ∧
    (updateIncomeGoal s month amount now).assets = s.assets ∧
    (updateIncomeGoal s month amount now).expensePlans = s.expensePlans ∧
    (updateIncomeGoal s month amount now).purchases = s.purchases := by
  by_cases hg : (s.incomeGoals.any fun g => g.month == month) = true <;>
    simp [updateIncomeGoal, hg]

theorem updateExpensePlan_frame (s : FinancialData) (month : String)
    (mode : ExpensePlanMode) (amount : ℚ) (now : Nat) :
    (updateExpensePlan s month mode amount now).expenses = s.expenses ∧
    (updateExpensePlan s month mode amount now).recurringExpenses = s.recurringExpenses ∧
    (updateExpensePlan s month mode amount now).debts = s.debts ∧
    (updateExpensePlan s month mode amount now).income = s.income ∧
    (updateExpensePlan s month mode amount now).assets = s.assets ∧
    (updateExpensePlan s month mode amount now).incomeGoals = s.incomeGoals ∧
    (updateExpensePlan s month mode amount now).purchases = s.purchases := by
  by_cases hp : (s.expensePlans.any fun p => p.month == month && p.mode == mode) = true <;>
    simp [updateExpensePlan, hp]

/-- **C4**: dropping a Considering purchase on the Purchased column appends
exactly one new expense, whose amount is the purchase's cost, whose category
is the purchase's category, and whose date is today's date. -/
theorem purchase_drop_adds_expense (s : FinancialData) (pid today : String)
    (n : Nat) (p : Purchase)
    (hfind : s.purchases.find? (fun q => q.id == pid) = some p)
    (_hstatus : p.status = PurchaseStatus.Considering) :
    ∃ e : Expense,
      (handleDrop s pid PurchaseStatus.Purchased today n).expenses
          = s.expenses ++ [e] ∧
      e.amount = p.cost ∧ e.category = p.category ∧ e.date = today := by
  unfold handleDrop
  rw [if_pos rfl, hfind]
  exact ⟨expenseFromPurchase p today, rfl, rfl, rfl, rfl⟩

/-- Witness for C4 at the seed state: purchase `p1` (cost 450, category
Business Expenses, status Considering) dropped on Purchased. -/
theorem purchase_drop_adds_expense_witness :
    ∃ e : Expense,
      (handleDrop initialState "p1" PurchaseStatus.Purchased "2025-11-20" 0).expenses
          = initialState.expenses ++ [e] ∧
      e.amount = (450 : ℚ) ∧ e.category = ExpenseCategory.BusinessExpenses ∧
      e.date = "2025-11-20" :=
  purchase_drop_adds_expense initialState "p1" "2025-11-20" 0
    { id := "p1", name := "New Standing Desk", cost := 450,
      category := .BusinessExpenses,
      justification := "Improve ergonomics and productivity.",
      status := .Considering, dateAdded := "2025-11-10" }
    (by rfl) (by rfl)

/-- **C10**: the expense materialized for a purchase moved to Purchased has
the deterministic id `exp-from-pur-<purchaseId>`, description equal to the
purchase's name, and mode fixed to Growth; and `ADD_EXPENSE` appends its
payload unconditionally — no duplicate-id check. -/
theorem purchased_expense_identity (s : FinancialData) (pid today : String)
    (n : Nat) (p : Purchase)
    (hfind : s.purchases.find? (fun q => q.id == pid) = some p) :
    (∃ e : Expense,
      (handleDrop s pid PurchaseStatus.Purchased today n).expenses
          = s.expenses ++ [e] ∧
      e.id = "exp-from-pur-" ++ pid ∧ e.description = p.name ∧
      e.mode = ExpenseMode.Growth) ∧
    (∀ (st : FinancialData) (x : Expense) (k : Nat),
      (financialReducer st (.ADD_EXPENSE x) k).expenses = st.expenses ++ [x]) := by
  have hq := List.find?_some hfind
  have hpid : p.id = pid := eq_of_beq hq
  constructor
  · unfold handleDrop
    rw [if_pos rfl, hfind]
    refine ⟨expenseFromPurchase p today, rfl, ?_, rfl, rfl⟩
    show "exp-from-pur-" ++ p.id = "exp-from-pur-" ++ pid
    rw [hpid]
  · intro st x k; rfl

/-- Witness for C10 at the seed state: the id, description and mode of the
expense materialized for purchase `p1`. -/
theorem purchased_expense_identity_witness :
    (∃ e : Expense,
      (handleDrop initialState "p1" PurchaseStatus.Purchased "2025-11-21" 0).expenses
          = initialState.expenses ++ [e] ∧
      e.id = "exp-from-pur-" ++ "p1" ∧ e.description = "New Standing Desk" ∧
      e.mode = ExpenseMode.Growth) ∧
    (∀ (st : FinancialData) (x : Expense) (k : Nat),
      (financialReducer st (.ADD_EXPENSE x) k).expenses = st.expenses ++ [x]) :=
  purchased_expense_identity initialState "p1" "2025-11-21" 0
    { id := "p1", name := "New Standing Desk", cost := 450,
      category := .BusinessExpenses,
      justification := "Improve ergonomics and productivity.",
      status := .Considering, dateAdded := "2025-11-10" }
    (by rfl)

/-- **C9**: every reducer action other than `SET_STATE` modifies at most one
of the eight top-level collections: the other seven are returned unchanged. -/
theorem reducer_single_collection (s : FinancialData) (a : FinancialAction)
    (n : Nat) (h : isSetState a = false) :
    ∃ f : Collection, unchangedExcept f s (financialReducer s a n) := by
  cases a with
  | SET_STATE p => exact absurd h (by simp [isSetState])
  | ADD_EXPENSE p =>
    exact ⟨.expenses, fun h' => absurd rfl h', fun _ => rfl, fun _ => rfl,
      fun _ => rfl, fun _ => rfl, fun _ => rfl, fun _ => rfl, fun _ => rfl⟩
  | UPDATE_EXPENSE p =>
    exact ⟨.expenses, fun h' => absurd rfl h', fun _ => rfl, fun _ => rfl,
      fun _ => rfl, fun _ => rfl, fun _ => rfl, fun _ => rfl, fun _ => rfl⟩
  | DELETE_EXPENSE i =>
    exact ⟨.expenses, fun h' => absurd rfl h', fun _ => rfl, fun _ => rfl,
      fun _ => rfl, fun _ => rfl, fun _ => rfl, fun _ => rfl, fun _ => rfl⟩
  | ADD_RECURRING_EXPENSE p =>
    exact ⟨.recurringExpenses, fun _ => rfl, fun h' => absurd rfl h', fun _ => rfl,
      fun _ => rfl, fun _ => rfl, fun _ => rfl, fun _ => rfl, fun _ => rfl⟩
  | UPDATE_RECURRING_EXPENSE p =>
    exact ⟨.recurringExpenses, fun _ => rfl, fun h' => absurd rfl h', fun _ => rfl,
      fun _ => rfl, fun _ => rfl, fun _ => rfl, fun _ => rfl, fun _ => rfl⟩
  | DELETE_RECURRING_EXPENSE i =>
    exact ⟨.recurringExpenses, fun _ => rfl, fun h' => absurd rfl h', fun _ => rfl,
      fun _ => rfl, fun _ => rfl, fun _ => rfl, fun _ => rfl, fun _ => rfl⟩
  | LOG_RECURRING_EXPENSES_FOR_MONTH month =>
    obtain ⟨h1, h2, h3, h4, h5, h6, h7, h8⟩ := logRecurringForMonth_fields s month
    exact ⟨.expenses, fun h' => absurd rfl h', fun _ => h2, fun _ => h3,
      fun _ => h4, fun _ => h5, fun _ => h6, fun _ => h7, fun _ => h8⟩
  | ADD_DEBT p =>
    exact ⟨.debts, fun _ => rfl, fun _ => rfl, fun h' => absurd rfl h',
      fun _ => rfl, fun _ => rfl, fun _ => rfl, fun _ => rfl, fun _ => rfl⟩
  | UPDATE_DEBT p =>
    exact ⟨.debts, fun _ => rfl, fun _ => rfl, fun h' => absurd rfl h',
      fun _ => rfl, fun _ => rfl, fun _ => rfl, fun _ => rfl, fun _ => rfl⟩
  | DELETE_DEBT i =>
    exact ⟨.debts, fun _ => rfl, fun _ => rfl, fun h' => absurd rfl h',
      fun _ => rfl, fun _ => rfl, fun _ => rfl, fun _ => rfl, fun _ => rfl⟩
  | ADD_INCOME p =>
    exact ⟨.income, fun _ => rfl, fun _ => rfl, fun _ => rfl,
      fun h' => absurd rfl h', fun _ => rfl, fun _ => rfl, fun _ => rfl, fun _ => rfl⟩
  | UPDATE_INCOME p =>
    exact ⟨.income, fun _ => rfl, fun _ => rfl, fun _ => rfl,
      fun h' => absurd rfl h', fun _ => rfl, fun _ => rfl, fun _ => rfl, fun _ => rfl⟩
  | DELETE_INCOME i =>
    exact ⟨.income, fun _ => rfl, fun _ => rfl, fun _ => rfl,
      fun h' => absurd rfl h', fun _ => rfl, fun _ => rfl, fun _ => rfl, fun _ => rfl⟩
  | ADD_ASSET p =>
    exact ⟨.assets, fun _ => rfl, fun _ => rfl, fun _ => rfl, fun _ => rfl,
      fun h' => absurd rfl h', fun _ => rfl, fun _ => rfl, fun _ => rfl⟩
  | UPDATE_ASSET_VALUE i v =>
    exact ⟨.assets, fun _ => rfl, fun _ => rfl, fun _ => rfl, fun _ => rfl,
      fun h' => absurd rfl h', fun _ => rfl, fun _ => rfl, fun _ => rfl⟩
  | ADD_PURCHASE p =>
    exact ⟨.purchases, fun _ => rfl, fun _ => rfl, fun _ => rfl, fun _ => rfl,
      fun _ => rfl, fun _ => rfl, fun _ => rfl, fun h' => absurd rfl h'⟩
  | UPDATE_PURCHASE_STATUS i st =>
    exact ⟨.purchases, fun _ => rfl, fun _ => rfl, fun _ => rfl, fun _ => rfl,
      fun _ => rfl, fun _ => rfl, fun _ => rfl, fun h' => absurd rfl h'⟩
  | UPDATE_INCOME_GOAL month amount =>
    obtain ⟨h1, h2, h3, h4, h5, h6, h7⟩ := updateIncomeGoal_frame s month amount n
    exact ⟨.incomeGoals, fun _ => h1, fun _ => h2, fun _ => h3, fun _ => h4,
      fun _ => h5, fun h' => absurd rfl h', fun _ => h6, fun _ => h7⟩
  | UPDATE_EXPENSE_PLAN month mode amount =>
    obtain ⟨h1, h2, h3, h4, h5, h6, h7⟩ := updateExpensePlan_frame s month mode amount n
    exact ⟨.expensePlans, fun _ => h1, fun _ => h2, fun _ => h3, fun _ => h4,
      fun _ => h5, fun _ => h6, fun h' => absurd rfl h', fun _ => h7⟩
  | UPDATE_DEBT_BALANCE i b =>
    exact ⟨.debts, fun _ => rfl, fun _ => rfl, fun h' => absurd rfl h',
      fun _ => rfl, fun _ => rfl, fun _ => rfl, fun _ => rfl, fun _ => rfl⟩

/-- Witness for C9: `ADD_DEBT` at the seed state changes nothing outside the
debts collection. -/
theorem reducer_single_collection_witness :
    ∃ f : Collection,
      unchangedExcept f initialState
        (financialReducer initialState
          (.ADD_DEBT { id := "d3", name := "Car Loan", originalAmount := 9000,
                       currentBalance := 9000, interestRate := 3,
                       minimumPayment := 150 }) 0) :=
  reducer_single_collection initialState _ 0 rfl

/-- **C6**: the monthly aggregate is the sum of `amount` over exactly those
records whose date string has the month key as a pure string prefix; in
particular an expense dated `2025-11-30` counts toward `2025-11`, and an
expense dated `2025-1-05` (unpadded month) does not count toward `2025-01`. -/
theorem monthly_aggregate_prefix_semantics :
    (∀ (es : List Expense) (m : String),
      monthlyExpenseTotal es m
        = ((es.filter fun e => decide (m.data <+: e.date.data)).map
            fun e => e.amount).sum) ∧
    (∀ (i d : String) (c : ExpenseCategory) (a : ℚ) (md : ExpenseMode),
      monthlyExpenseTotal
        [{ id := i, date := "2025-11-30", category := c, amount := a,
           description := d, mode := md }] "2025-11" = a) ∧
    (∀ (i d : String) (c : ExpenseCategory) (a : ℚ) (md : ExpenseMode),
      monthlyExpenseTotal
        [{ id := i, date := "2025-1-05", category := c, amount := a,
           description := d, mode := md }] "2025-01" = 0) := by
  refine ⟨?_, ?_, ?_⟩
  · intro es m
    unfold monthlyExpenseTotal
    have hfun : ∀ e ∈ es, jsStartsWith e.date m = decide (m.data <+: e.date.data) := by
      intro e _
      rw [Bool.eq_iff_iff]
      simp [jsStartsWith, List.isPrefixOf_iff_prefix]
    rw [List.filter_congr hfun]
  · intro i d c a md
    have h : jsStartsWith "2025-11-30" "2025-11" = true := by decide
    simp [monthlyExpenseTotal, h]
  · intro i d c a md
    have h : jsStartsWith "2025-1-05" "2025-01" = false := by decide
    simp [monthlyExpenseTotal, h]

theorem insertMonthKey_nodup (ks : List String) (k : String) (h : ks.Nodup) :
    (insertMonthKey ks k).Nodup := by
  unfold insertMonthKey
  split
  · exact h
  · next hc =>
    have hk : k ∉ ks := fun hm => hc (List.elem_iff.mpr hm)
    simp [List.nodup_append, h, hk]

theorem mem_insertMonthKey (ks : List String) (k m : String) :
    m ∈ insertMonthKey ks k ↔ m ∈ ks ∨ m = k := by
  unfold insertMonthKey
  split
  · next hc =>
    have hk : k ∈ ks := List.elem_iff.mp hc
    constructor
    · exact Or.inl
    · rintro (h | rfl)
      · exact h
      · exact hk
  · simp

theorem foldl_insertMonthKey_nodup (inc : List Income) (ks : List String)
    (h : ks.Nodup) :
    (inc.foldl (fun ks i => insertMonthKey ks (incomeMonthKey i)) ks).Nodup := by
  induction inc generalizing ks with
  | nil => exact h
  | cons i rest ih => exact ih _ (insertMonthKey_nodup _ _ h)

theorem mem_foldl_insertMonthKey (inc : List Income) (ks : List String) (m : String) :
    m ∈ inc.foldl (fun ks i => insertMonthKey ks (incomeMonthKey i)) ks ↔
      m ∈ ks ∨ ∃ i ∈ inc, incomeMonthKey i = m := by
  induction inc generalizing ks with
  | nil => simp
  | cons i rest ih =>
    rw [List.foldl_cons, ih, mem_insertMonthKey]
    simp only [List.mem_cons, exists_eq_or_imp]
    constructor
    · intro h
      rcases h with (h1 | h2) | h3
      · exact Or.inl h1
      · exact Or.inr (Or.inl h2.symm)
      · exact Or.inr (Or.inr h3)
    · intro h
      rcases h with h1 | h2 | h3
      · exact Or.inl (Or.inl h1)
      · exact Or.inl (Or.inr h2.symm)
      · exact Or.inr h3

theorem incomeMonthKeys_nodup (inc : List Income) : (incomeMonthKeys inc).Nodup :=
  foldl_insertMonthKey_nodup inc [] List.nodup_nil

theorem mem_incomeMonthKeys (inc : List Income) (m : String) :
    m ∈ incomeMonthKeys inc ↔ ∃ i ∈ inc, incomeMonthKey i = m := by
  rw [incomeMonthKeys, mem_foldl_insertMonthKey]
  simp

theorem mergeSort_le_sorted (l : List String) :
    ((l.mergeSort fun a b => decide (a ≤ b))).Sorted (· ≤ ·) := by
  have h := List.sorted_mergeSort
    (fun (a b c : String) (hab : decide (a ≤ b) = true) (hbc : decide (b ≤ c) = true) =>
      by simp at hab hbc ⊢; exact le_trans hab hbc)
    (fun (a b : String) => by simpa using le_total a b)
    l
  exact h.imp (by simp)

/-- **C7**: the trailing average monthly income handed to the forecast
collaborator is the mean of the income totals of the last (at most) three
calendar months that have any income records — months without income records
never enter the average. `ms` is the chronologically sorted, duplicate-free
list of months with activity; the code averages exactly over its last three
entries. -/
theorem avg_income_last_three_active_months (inc : List Income) :
    ∃ ms : List String,
      (∀ m, m ∈ ms ↔ ∃ i ∈ inc, incomeMonthKey i = m) ∧
      ms.Sorted (· < ·) ∧
      recentMonths inc = ms.drop (ms.length - 3) ∧
      avgMonthlyIncome inc
        = (if (ms.drop (ms.length - 3)).isEmpty then 0
           else ((ms.drop (ms.length - 3)).map fun m => incomeByMonth inc m).sum
                 / ((ms.drop (ms.length - 3)).length : ℚ)) := by
  refine ⟨(incomeMonthKeys inc).mergeSort fun a b => decide (a ≤ b), ?_, ?_, rfl, ?_⟩
  · intro m
    rw [(List.mergeSort_perm (incomeMonthKeys inc) _).mem_iff]
    exact mem_incomeMonthKeys inc m
  · have hnd : ((incomeMonthKeys inc).mergeSort fun a b => decide (a ≤ b)).Nodup :=
      ((List.mergeSort_perm (incomeMonthKeys inc) _).nodup_iff).mpr
        (incomeMonthKeys_nodup inc)
    exact (mergeSort_le_sorted (incomeMonthKeys inc)).lt_of_le hnd
  · show avgMonthlyIncome inc
        = if (recentMonths inc).isEmpty then 0
          else ((recentMonths inc).map fun m => incomeByMonth inc m).sum
                / ((recentMonths inc).length : ℚ)
    unfold avgMonthlyIncome
    cases hE : recentMonths inc with
    | nil => simp
    | cons x xs => simp [hE]

theorem storedApiKey_error_msg (stored : Option StoredKeyParse) (m : String)
    (h : storedApiKey stored = .error m) : m = apiKeyErrorMessage := by
  unfold storedApiKey at h
  split at h
  · split at h
    · exact absurd h (by simp)
    · simpa using h.symm
  · simpa using h.symm

theorem getApiKey_error_msg (envApiKey : Option String)
    (stored : Option StoredKeyParse) (m : String)
    (h : getApiKey envApiKey stored = .error m) : m = apiKeyErrorMessage := by
  unfold getApiKey at h
  split at h
  · split at h
    · exact absurd h (by simp)
    · exact storedApiKey_error_msg _ _ h
  · exact storedApiKey_error_msg _ _ h

/-- **C8**: the insight and rundown adapters never let a failure escape: on a
successful body they return its text, and on any failure (missing credential,
thrown `Error`, thrown non-`Error` value) they return the corresponding
human-readable string — the `Error` message, or a fixed nonempty fallback —
as the ordinary return value; a missing credential always carries the fixed
"API key not found" message. -/
theorem adapters_return_error_strings (envApiKey : Option String)
    (stored : Option StoredKeyParse) (net : NetResult) (data : FinancialData) :
    (∀ t, getFinancialInsightsBody envApiKey stored net = .ok t →
        getFinancialInsights envApiKey stored net = t) ∧
    (∀ e, getFinancialInsightsBody envApiKey stored net = .error e →
        getFinancialInsights envApiKey stored net
          = (match e with | some m => m | none => insightsFallback)) ∧
    (∀ t, getFinancialRundownBody envApiKey stored net data = .ok t →
        getFinancialRundown envApiKey stored net data = t) ∧
    (∀ e, getFinancialRundownBody envApiKey stored net data = .error e →
        getFinancialRundown envApiKey stored net data
          = (match e with | some m => m | none => rundownFallback)) ∧
    insightsFallback ≠ "" ∧ rundownFallback ≠ "" ∧
    (∀ m, getApiKey envApiKey stored = .error m → m = apiKeyErrorMessage) := by
  refine ⟨?_, ?_, ?_, ?_, by simp [insightsFallback], by simp [rundownFallback],
    fun m h => getApiKey_error_msg envApiKey stored m h⟩
  · intro t h
    unfold getFinancialInsights
    rw [h]
  · intro e h
    unfold getFinancialInsights
    rw [h]
    cases e <;> rfl
  · intro t h
    unfold getFinancialRundown
    rw [h]
  · intro e h
    unfold getFinancialRundown
    rw [h]
    cases e <;> rfl

/-- Witness for C8: with no credential anywhere, the insights adapter returns
the "API key not found" message as its ordinary string result. -/
theorem adapters_return_error_strings_witness :
    getFinancialInsights none none (.ok "sample insight") = apiKeyErrorMessage :=
  (adapters_return_error_strings none none (.ok "sample insight") initialState).2.1
    (some apiKeyErrorMessage) rfl

/-- A sequence of `UPDATE_INCOME_GOAL` dispatches for one month: each element
carries the action's amount and the `Date.now()` value at dispatch time. -/
def applyGoalActions (s : FinancialData) (month : String)
    (acts : List (ℚ × Nat)) : FinancialData :=
  acts.foldl (fun st a => financialReducer st (.UPDATE_INCOME_GOAL month a.1) a.2) s

theorem updateIncomeGoal_goals_of_exists (s : FinancialData) (month : String)
    (a : ℚ) (n : Nat) (h : (s.incomeGoals.any fun g => g.month == month) = true) :
    (updateIncomeGoal s month a n).incomeGoals
      = s.incomeGoals.map fun g =>
          if g.month == month then { g with amount := a } else g := by
  simp [updateIncomeGoal, h]

theorem updateIncomeGoal_goals_of_not_exists (s : FinancialData) (month : String)
    (a : ℚ) (n : Nat) (h : (s.incomeGoals.any fun g => g.month == month) = false) :
    (updateIncomeGoal s month a n).incomeGoals
      = s.incomeGoals ++ [{ id := "ig-" ++ toString n, month := month, amount := a }] := by
  simp [updateIncomeGoal, h]

theorem countP_updateIncomeGoal (s : FinancialData) (month : String) (a : ℚ)
    (n : Nat) (h : s.incomeGoals.countP (fun g => g.month == month) ≤ 1) :
    (updateIncomeGoal s month a n).incomeGoals.countP (fun g => g.month == month)
      = 1 := by
  cases hA : s.incomeGoals.any fun g => g.month == month with
  | true =>
    rw [updateIncomeGoal_goals_of_exists s month a n hA, List.countP_map]
    have hfun : ((fun g : IncomeGoal => g.month == month) ∘ fun g =>
        if g.month == month then { g with amount := a } else g)
          = fun g : IncomeGoal => g.month == month := by
      funext g
      by_cases hg : (g.month == month) = true
      · simp [Function.comp, hg]
      · simp [Function.comp, hg]
    rw [hfun]
    have h1 : 0 < s.incomeGoals.countP fun g => g.month == month := by
      rw [List.countP_pos_iff]
      exact List.any_eq_true.mp hA
    omega
  | false =>
    rw [updateIncomeGoal_goals_of_not_exists s month a n hA, List.countP_append]
    have h0 : (s.incomeGoals.countP fun g => g.month == month) = 0 :=
      List.countP_eq_zero.mpr (List.any_eq_false.mp hA)
    rw [h0]
    simp

theorem amount_updateIncomeGoal (s : FinancialData) (month : String) (a : ℚ)
    (n : Nat) :
    ∀ g ∈ (updateIncomeGoal s month a n).incomeGoals,
      (g.month == month) = true → g.amount = a := by
  intro g hg hgm
  cases hA : s.incomeGoals.any fun gg => gg.month == month with
  | true =>
    rw [updateIncomeGoal_goals_of_exists s month a n hA] at hg
    obtain ⟨g₀, hg₀, hEq⟩ := List.mem_map.mp hg
    by_cases h0 : (g₀.month == month) = true
    · rw [if_pos h0] at hEq
      rw [← hEq]
    · rw [if_neg h0] at hEq
      rw [← hEq] at hgm
      exact absurd hgm h0
  | false =>
    rw [updateIncomeGoal_goals_of_not_exists s month a n hA] at hg
    rcases List.mem_append.mp hg with hin | hnew
    · exact absurd hgm (List.any_eq_false.mp hA g hin)
    · rw [List.mem_singleton.mp hnew]

theorem presence_updateIncomeGoal (s : FinancialData) (month : String) (a : ℚ)
    (n : Nat) :
    ∀ g₀ ∈ s.incomeGoals, ∃ g ∈ (updateIncomeGoal s month a n).incomeGoals,
      g.id = g₀.id ∧ g.month = g₀.month := by
  intro g₀ hg₀
  cases hA : s.incomeGoals.any fun gg => gg.month == month with
  | true =>
    rw [updateIncomeGoal_goals_of_exists s month a n hA]
    refine ⟨if g₀.month == month then { g₀ with amount := a } else g₀,
      List.mem_map_of_mem _ hg₀, ?_⟩
    by_cases h0 : (g₀.month == month) = true
    · rw [if_pos h0]
      exact ⟨rfl, rfl⟩
    · rw [if_neg h0]
      exact ⟨rfl, rfl⟩
  | false =>
    rw [updateIncomeGoal_goals_of_not_exists s month a n hA]
    exact ⟨g₀, List.mem_append_left _ hg₀, rfl, rfl⟩

theorem updateIncomeGoal_fresh_shape (s : FinancialData) (month : String)
    (a : ℚ) (n : Nat)
    (hgs : ∀ g ∈ s.incomeGoals, (g.month == month) = false) :
    (updateIncomeGoal s month a n).incomeGoals
      = s.incomeGoals ++ [{ id := "ig-" ++ toString n, month := month, amount := a }] := by
  apply updateIncomeGoal_goals_of_not_exists
  rw [List.any_eq_false]
  intro g hg
  rw [hgs g hg]
  simp

theorem updateIncomeGoal_keep_shape (s : FinancialData) (month : String)
    (a : ℚ) (n : Nat) (gs : List IncomeGoal) (r : IncomeGoal)
    (hshape : s.incomeGoals = gs ++ [r])
    (hgs : ∀ g ∈ gs, (g.month == month) = false)
    (hr : (r.month == month) = true) :
    (updateIncomeGoal s month a n).incomeGoals = gs ++ [{ r with amount := a }] := by
  have hA : (s.incomeGoals.any fun g => g.month == month) = true := by
    rw [hshape, List.any_eq_true]
    exact ⟨r, List.mem_append_right _ (List.mem_singleton.mpr rfl), hr⟩
  rw [updateIncomeGoal_goals_of_exists s month a n hA, hshape, List.map_append]
  congr 1
  · have hid : ∀ g ∈ gs,
        (if g.month == month then { g with amount := a } else g) = (fun g => g) g := by
      intro g hg
      rw [if_neg]
      rw [hgs g hg]
      simp
    rw [List.map_congr_left hid, List.map_id']
  · rw [List.map_singleton, if_pos hr]

theorem countP_applyGoalActions (month : String) :
    ∀ (acts : List (ℚ × Nat)) (s : FinancialData),
      s.incomeGoals.countP (fun g => g.month == month) ≤ 1 →
      ((applyGoalActions s month acts).incomeGoals.countP
          (fun g => g.month == month) ≤ 1) ∧
      (acts ≠ [] →
        (applyGoalActions s month acts).incomeGoals.countP
            (fun g => g.month == month) = 1) := by
  intro acts
  induction acts with
  | nil => exact fun s h => ⟨h, fun hne => absurd rfl hne⟩
  | cons a rest ih =>
    intro s h
    have hstep := countP_updateIncomeGoal s month a.1 a.2 h
    have ih' := ih (updateIncomeGoal s month a.1 a.2) (by rw [hstep])
    refine ⟨ih'.1, fun _ => ?_⟩
    cases rest with
    | nil => exact hstep
    | cons b bs => exact ih'.2 (List.cons_ne_nil b bs)

theorem presence_applyGoalActions (month : String) :
    ∀ (acts : List (ℚ × Nat)) (s : FinancialData), ∀ g₀ ∈ s.incomeGoals,
      ∃ g ∈ (applyGoalActions s month acts).incomeGoals,
        g.id = g₀.id ∧ g.month = g₀.month := by
  intro acts
  induction acts with
  | nil => exact fun s g₀ h => ⟨g₀, h, rfl, rfl⟩
  | cons a rest ih =>
    intro s g₀ hg₀
    obtain ⟨g₁, hg₁, hid₁, hmo₁⟩ := presence_updateIncomeGoal s month a.1 a.2 g₀ hg₀
    obtain ⟨g₂, hg₂, hid₂, hmo₂⟩ := ih (updateIncomeGoal s month a.1 a.2) g₁ hg₁
    exact ⟨g₂, hg₂, hid₂.trans hid₁, hmo₂.trans hmo₁⟩

theorem amount_applyGoalActions (s : FinancialData) (month : String)
    (acts : List (ℚ × Nat)) (hne : acts ≠ []) :
    ∀ g ∈ (applyGoalActions s month acts).incomeGoals,
      (g.month == month) = true → g.amount = (acts.getLast hne).1 := by
  intro g hg hm
  have hdec : acts.dropLast ++ [acts.getLast hne] = acts :=
    List.dropLast_append_getLast hne
  rw [← hdec, applyGoalActions, List.foldl_append] at hg
  exact amount_updateIncomeGoal _ month _ _ g hg hm

theorem getLastD_map_fst :
    ∀ (rest : List (ℚ × Nat)) (a : ℚ × Nat),
      (rest.map Prod.fst).getLastD a.1
        = ((a :: rest).getLast (List.cons_ne_nil a rest)).1 := by
  intro rest
  induction rest with
  | nil => intro a; rfl
  | cons b bs ih =>
    intro a
    rw [List.map_cons, List.getLastD_cons, ih b,
      List.getLast_cons (List.cons_ne_nil b bs)]

theorem applyGoalActions_keep_shape (month : String) :
    ∀ (acts : List (ℚ × Nat)) (s : FinancialData) (gs : List IncomeGoal)
      (r : IncomeGoal),
      s.incomeGoals = gs ++ [r] →
      (∀ g ∈ gs, (g.month == month) = false) →
      (r.month == month) = true →
      (applyGoalActions s month acts).incomeGoals
        = gs ++ [{ r with amount := (acts.map Prod.fst).getLastD r.amount }] := by
  intro acts
  induction acts with
  | nil =>
    intro s gs r hshape hgs hr
    exact hshape
  | cons a rest ih =>
    intro s gs r hshape hgs hr
    have hstep := updateIncomeGoal_keep_shape s month a.1 a.2 gs r hshape hgs hr
    have ih' := ih (updateIncomeGoal s month a.1 a.2) gs { r with amount := a.1 }
      hstep hgs hr
    show (applyGoalActions (updateIncomeGoal s month a.1 a.2) month rest).incomeGoals
        = _
    rw [ih', List.map_cons, List.getLastD_cons]

theorem applyGoalActions_fresh_shape (s : FinancialData) (month : String)
    (acts : List (ℚ × Nat)) (hne : acts ≠ [])
    (hgs : ∀ g ∈ s.incomeGoals, (g.month == month) = false) :
    (applyGoalActions s month acts).incomeGoals
      = s.incomeGoals ++
          [{ id := "ig-" ++ toString (acts.head hne).2, month := month,
             amount := (acts.getLast hne).1 }] := by
  cases acts with
  | nil => exact absurd rfl hne
  | cons a rest =>
    have hstep := updateIncomeGoal_fresh_shape s month a.1 a.2 hgs
    have hkeep := applyGoalActions_keep_shape month rest
      (updateIncomeGoal s month a.1 a.2) s.incomeGoals
      { id := "ig-" ++ toString a.2, month := month, amount := a.1 }
      hstep hgs (by simp)
    show (applyGoalActions (updateIncomeGoal s month a.1 a.2) month rest).incomeGoals
        = _
    rw [hkeep, getLastD_map_fst rest a]
    rfl

/-- **C3**: a nonempty sequence of `UPDATE_INCOME_GOAL` actions for one and
the same month, applied to a state holding at most one goal for that month,
leaves exactly one goal record for that month, carrying the amount of the last
action; ids of pre-existing goals are preserved, and when no goal for the
month existed a single new record with the freshly generated id
`ig-<Date.now()>` of the first action is appended. -/
theorem income_goal_upsert_sequence (s : FinancialData) (month : String)
    (acts : List (ℚ × Nat)) (hne : acts ≠ [])
    (hcount : s.incomeGoals.countP (fun g => g.month == month) ≤ 1) :
    ((applyGoalActions s month acts).incomeGoals.countP
        (fun g => g.month == month) = 1) ∧
    (∀ g ∈ (applyGoalActions s month acts).incomeGoals,
      (g.month == month) = true → g.amount = (acts.getLast hne).1) ∧
    (∀ g₀ ∈ s.incomeGoals, ∃ g ∈ (applyGoalActions s month acts).incomeGoals,
      g.id = g₀.id ∧ g.month = g₀.month) ∧
    ((∀ g ∈ s.incomeGoals, (g.month == month) = false) →
      (applyGoalActions s month acts).incomeGoals
        = s.incomeGoals ++
            [{ id := "ig-" ++ toString (acts.head hne).2, month := month,
               amount := (acts.getLast hne).1 }]) :=
  ⟨(countP_applyGoalActions month acts s hcount).2 hne,
   amount_applyGoalActions s month acts hne,
   presence_applyGoalActions month acts s,
   fun hgs => applyGoalActions_fresh_shape s month acts hne hgs⟩

/-- Witness for C3: one upsert action for November 2025 over a state already
holding one goal for that month. -/
theorem income_goal_upsert_sequence_witness :
    (applyGoalActions
        { expenses := [], recurringExpenses := [], debts := [], income := [],
          assets := [],
          incomeGoals := [{ id := "igX", month := "2025-11", amount := 100 }],
          expensePlans := [], purchases := [] }
        "2025-11" [(250, 7)]).incomeGoals.countP
      (fun g => g.month == "2025-11") = 1 :=
  (income_goal_upsert_sequence
    { expenses := [], recurringExpenses := [], debts := [], income := [],
      assets := [],
      incomeGoals := [{ id := "igX", month := "2025-11", amount := 100 }],
      expensePlans := [], purchases := [] }
    "2025-11" [(250, 7)] (by decide) (by decide)).1

end Zenith
